import Mathlib

/-!
Verification of the SolomonChatKit front-end against its specification.

The development shallowly embeds the pieces of the repository that the
properties below are about:

* the JSON micro-format extraction of `components/WidgetRenderer.tsx`
  (`parseWidgetFromText`, the `ContactCardWidget` view computation);
* the DOM scanning step `processMessageContent` of the chat panel
  (mutations are represented as explicit `DomMutation` values; returning
  `none` means the scanner leaves the DOM untouched);
* the error-state aggregator (`setErrorState`, `blockingError`) and the
  panel reset operation (`handleResetChat`);
* the backend session endpoint `app/api/create-session/route.ts`
  (`POST`, `GET`, cookie handling, upstream passthrough).

JavaScript strings are modelled as Lean `String`/`List Char`; `JSON.parse`
is modelled by an executable strict JSON parser; JavaScript numbers are
modelled as exact decimals `m * 10 ^ e` in canonical form (trailing zeros
stripped), which agrees with JavaScript semantics on every value these
properties touch. Nondeterministic inputs (generated UUIDs, the upstream
HTTP response, whether the vendor web component is registered) are passed
in as explicit parameters.
-/

/-- JSON values as produced by `JSON.parse`. Numbers are exact decimals
`num m e` denoting `m * 10 ^ e`, kept in canonical form with `m` not
divisible by 10 (or `m = 0`, `e = 0`). Object fields are kept in source
order; duplicate keys are resolved by `getField` taking the last
occurrence, matching `JSON.parse`. -/
inductive Json where
  | null
  | boolean (b : Bool)
  | num (m : Int) (e : Int)
  | str (s : String)
  | arr (elems : List Json)
  | obj (fields : List (String × Json))

/-- Whitespace recognised by the JavaScript regex class `\s` (the ASCII
part; the scanned chat text is ASCII for every property below) and by
`String.prototype.trim`. -/
def regexSpaceChars : List Char := [' ', '\t', '\n', '\r', '\x0b', '\x0c']

def isRegexSpace (c : Char) : Bool := regexSpaceChars.contains c

/-- Whitespace permitted around tokens by `JSON.parse` (RFC 8259). -/
def isJsonSpace (c : Char) : Bool := [' ', '\t', '\n', '\r'].contains c

def skipJsonWs (cs : List Char) : List Char := cs.dropWhile isJsonSpace

/-- Model of `String.prototype.trim`. -/
def jsTrim (cs : List Char) : List Char :=
  ((cs.dropWhile isRegexSpace).reverse.dropWhile isRegexSpace).reverse

def digitsToNat (ds : List Char) : Nat :=
  ds.foldl (fun a c => a * 10 + (c.toNat - 48)) 0

/-- Strips factors of 10 from the mantissa into the exponent, producing the
canonical representation of a decimal. The fuel bounds the number of
divisions. -/
def stripTrailingZeros : Nat → Int → Int → Int × Int
  | 0, m, e => (m, e)
  | fuel + 1, m, e =>
    if m % 10 = 0 ∧ m ≠ 0 then stripTrailingZeros fuel (m / 10) (e + 1) else (m, e)

/-- Builds a canonical `Json.num` from a parsed mantissa and exponent. -/
def canonNum (m : Int) (e : Int) : Json :=
  if m = 0 then .num 0 0
  else
    let p := stripTrailingZeros m.natAbs m e
    .num p.1 p.2

/-- Builds the exact decimal denoted by sign, integer digits, fraction
digits and exponent. -/
def assembleNum (neg : Bool) (intDigits fracDigits : List Char) (expVal : Int) : Json :=
  let magnitude : Int := (digitsToNat (intDigits ++ fracDigits) : Int)
  canonNum (if neg then -magnitude else magnitude)
    (expVal - (fracDigits.length : Int))

/-- Parses the exponent part after `e`/`E`: an optional sign followed by
at least one digit. -/
def parseExpPart (cs : List Char) : Option (Int × List Char) :=
  let signVal : Int := if cs.head? == some '-' then -1 else 1
  let body := if cs.head? == some '-' || cs.head? == some '+' then cs.drop 1 else cs
  let ds := body.takeWhile Char.isDigit
  if ds.isEmpty then none
  else some (signVal * (digitsToNat ds : Int), body.dropWhile Char.isDigit)

/-- Parses the magnitude of a JSON number literal after an optional minus
sign: `(0 | [1-9][0-9]*) frac? exp?`, exactly the grammar `JSON.parse`
accepts. -/
def parseJsonNumberCore (neg : Bool) (cs : List Char) : Option (Json × List Char) :=
  let intDigits := cs.takeWhile Char.isDigit
  let afterInt := cs.dropWhile Char.isDigit
  if intDigits.isEmpty then none
  else if intDigits.length > 1 && intDigits.head? == some '0' then none
  else
    let hasFrac := afterInt.head? == some '.'
    let fracDigits := if hasFrac then (afterInt.drop 1).takeWhile Char.isDigit else []
    let afterFrac := if hasFrac then (afterInt.drop 1).dropWhile Char.isDigit else afterInt
    if hasFrac && fracDigits.isEmpty then none
    else if afterFrac.head? == some 'e' || afterFrac.head? == some 'E' then
      match parseExpPart (afterFrac.drop 1) with
      | none => none
      | some (expVal, rest) => some (assembleNum neg intDigits fracDigits expVal, rest)
    else some (assembleNum neg intDigits fracDigits 0, afterFrac)

/-- Parses a JSON number literal into a canonical decimal. -/
def parseJsonNumber (cs : List Char) : Option (Json × List Char) :=
  match cs with
  | '-' :: rest => parseJsonNumberCore true rest
  | _ => parseJsonNumberCore false cs

def hexDigitVal (c : Char) : Option Nat :=
  if c.isDigit then some (c.toNat - 48)
  else if 'a' ≤ c && c ≤ 'f' then some (c.toNat - 87)
  else if 'A' ≤ c && c ≤ 'F' then some (c.toNat - 55)
  else none

def fourHex (cs : List Char) : Option (Nat × List Char) :=
  match cs with
  | a :: b :: c :: d :: rest =>
    match hexDigitVal a, hexDigitVal b, hexDigitVal c, hexDigitVal d with
    | some x, some y, some z, some w => some (((x * 16 + y) * 16 + z) * 16 + w, rest)
    | _, _, _, _ => none
  | _ => none

/-- Parses the body of a JSON string literal (after the opening quote),
returning the decoded characters and the remainder after the closing
quote. Escapes follow `JSON.parse`; `\u` surrogate pairs are combined.
Lone surrogates (which JavaScript would keep as unpaired UTF-16 units)
are rejected, a divergence only in that dark corner. -/
def parseJsonStringBody : Nat → List Char → Option (List Char × List Char)
  | 0, _ => none
  | _ + 1, [] => none
  | fuel + 1, c :: cs =>
    if c == '"' then some ([], cs)
    else if c == '\\' then
      match cs with
      | [] => none
      | e :: cs' =>
        let simpleEsc : Option Char :=
          if e == '"' then some '"'
          else if e == '\\' then some '\\'
          else if e == '/' then some '/'
          else if e == 'b' then some '\x08'
          else if e == 'f' then some '\x0c'
          else if e == 'n' then some '\n'
          else if e == 'r' then some '\r'
          else if e == 't' then some '\t'
          else none
        match simpleEsc with
        | some ch =>
          (parseJsonStringBody fuel cs').map (fun p => (ch :: p.1, p.2))
        | none =>
          if e == 'u' then
            match fourHex cs' with
            | none => none
            | some (n, rest) =>
              if 0xD800 ≤ n ∧ n ≤ 0xDBFF then
                match rest with
                | '\\' :: 'u' :: rest2 =>
                  match fourHex rest2 with
                  | some (lo, rest3) =>
                    if 0xDC00 ≤ lo ∧ lo ≤ 0xDFFF then
                      let code := 0x10000 + (n - 0xD800) * 0x400 + (lo - 0xDC00)
                      if code.isValidChar then
                        (parseJsonStringBody fuel rest3).map
                          (fun p => (Char.ofNat code :: p.1, p.2))
                      else none
                    else none
                  | none => none
                | _ => none
              else if n.isValidChar then
                (parseJsonStringBody fuel rest).map
                  (fun p => (Char.ofNat n :: p.1, p.2))
              else none
          else none
    else if c.toNat < 0x20 then none
    else (parseJsonStringBody fuel cs).map (fun p => (c :: p.1, p.2))

mutual

/-- Parses one JSON value from the head of `cs` (no leading whitespace).
Fuel-indexed so that the recursion is structural and kernel-reducible. -/
def parseJsonValue : Nat → List Char → Option (Json × List Char)
  | 0, _ => none
  | fuel + 1, cs =>
    match cs with
    | '\x7b' :: rest =>
      let rest := skipJsonWs rest
      match rest with
      | '\x7d' :: r2 => some (.obj [], r2)
      | _ =>
        match parseJsonMembers fuel rest with
        | some (fs, r2) => some (.obj fs, r2)
        | none => none
    | '[' :: rest =>
      let rest := skipJsonWs rest
      match rest with
      | ']' :: r2 => some (.arr [], r2)
      | _ =>
        match parseJsonElems fuel rest with
        | some (xs, r2) => some (.arr xs, r2)
        | none => none
    | '"' :: rest =>
      match parseJsonStringBody (rest.length + 1) rest with
      | some (chars, r2) => some (.str ⟨chars⟩, r2)
      | none => none
    | 't' :: 'r' :: 'u' :: 'e' :: rest => some (.boolean true, rest)
    | 'f' :: 'a' :: 'l' :: 's' :: 'e' :: rest => some (.boolean false, rest)
    | 'n' :: 'u' :: 'l' :: 'l' :: rest => some (.null, rest)
    | _ => parseJsonNumber cs

/-- Parses a nonempty comma-separated list of `"key": value` members and
the closing brace. -/
def parseJsonMembers : Nat → List Char → Option (List (String × Json) × List Char)
  | 0, _ => none
  | fuel + 1, cs =>
    match cs with
    | '"' :: rest =>
      match parseJsonStringBody (rest.length + 1) rest with
      | none => none
      | some (keyChars, r1) =>
        match skipJsonWs r1 with
        | ':' :: r2 =>
          match parseJsonValue fuel (skipJsonWs r2) with
          | none => none
          | some (v, r3) =>
            match skipJsonWs r3 with
            | ',' :: r4 =>
              match parseJsonMembers fuel (skipJsonWs r4) with
              | some (fs, r5) => some ((⟨keyChars⟩, v) :: fs, r5)
              | none => none
            | '\x7d' :: r4 => some ([(⟨keyChars⟩, v)], r4)
            | _ => none
        | _ => none
    | _ => none

/-- Parses a nonempty comma-separated list of array elements and the
closing bracket. -/
def parseJsonElems : Nat → List Char → Option (List Json × List Char)
  | 0, _ => none
  | fuel + 1, cs =>
    match parseJsonValue fuel cs with
    | none => none
    | some (v, r1) =>
      match skipJsonWs r1 with
      | ',' :: r2 =>
        match parseJsonElems fuel (skipJsonWs r2) with
        | some (xs, r3) => some (v :: xs, r3)
        | none => none
      | ']' :: r2 => some ([v], r2)
      | _ => none

end

/-- Model of `JSON.parse`: parses the whole input (surrounding whitespace
allowed, nothing else), returning `none` where `JSON.parse` throws. -/
def jsonParse (cs : List Char) : Option Json :=
  match parseJsonValue (2 * cs.length + 2) (skipJsonWs cs) with
  | some (v, rest) => if (skipJsonWs rest).isEmpty then some v else none
  | none => none

/-- JavaScript truthiness of a parsed JSON value (`null`, `false`, `0` and
`""` are falsy; every array and object is truthy). -/
def truthy : Json → Bool
  | .null => false
  | .boolean b => b
  | .num m _ => m != 0
  | .str s => s != ""
  | .arr _ => true
  | .obj _ => true

/-- Truthiness of a possibly-undefined value (`undefined` is falsy). -/
def truthyOpt : Option Json → Bool
  | none => false
  | some j => truthy j

/-- Last-occurrence association lookup, matching how `JSON.parse` resolves
duplicate object keys. -/
def lookupLast : List (String × Json) → String → Option Json
  | [], _ => none
  | (k, v) :: rest, key =>
    match lookupLast rest key with
    | some r => some r
    | none => if k == key then some v else none

/-- Property access `j[key]`; `none` plays the role of `undefined`. On the
code paths modelled here an access on `null` throws inside a `try` block
whose handler behaves exactly like the undefined case, so it is also
modelled as `none`. -/
def getField (j : Json) (key : String) : Option Json :=
  match j with
  | .obj fs => lookupLast fs key
  | _ => none

/-- Comma join of `Array.prototype.toString`. -/
def joinComma : List String → String
  | [] => ""
  | [s] => s
  | s :: ss => s ++ "," ++ joinComma ss

/-- Model of JavaScript `String(v)` on JSON values. The fuel only bounds
recursion into nested arrays (all other cases ignore it) and every call
site passes a bound exceeding the value's depth, so it never runs out on
reachable values; array elements that are `null` render empty as in
`Array.prototype.join`. Non-integer number formatting is approximated (no
property below evaluates it). -/
def jsToStringAux : Nat → Json → String
  | _, .null => "null"
  | _, .boolean true => "true"
  | _, .boolean false => "false"
  | _, .num m e =>
    if 0 ≤ e then toString (m * 10 ^ e.toNat)
    else toString m ++ "e" ++ toString e
  | _, .str s => s
  | _, .obj _ => "[object Object]"
  | 0, .arr _ => ""
  | fuel + 1, .arr xs =>
    joinComma (xs.map fun x =>
      match x with
      | .null => ""
      | j => jsToStringAux fuel j)

/-! The two regular expressions of `parseWidgetFromText`
(`components/WidgetRenderer.tsx`):

pattern 1, flat data object:
`\{[\s\n]*"widget"[\s\n]*:[\s\n]*"[^"]+"[\s\n]*,[\s\n]*"data"[\s\n]*:[\s\n]*\{[^}]*\}\s*\}`

pattern 2, one nested level inside data:
`\{[\s\n]*"widget"[\s\n]*:[\s\n]*"[^"]+"[\s\n]*,[\s\n]*"data"[\s\n]*:[\s\n]*\{[^}]*\{[^}]*\}[^}]*\}[^}]*\}`

Both are implemented as deterministic scanners. This is faithful to the
backtracking engine: every greedy character class in the patterns is
followed by a character excluded from the class (`[^"]+"`, `[^}]*\}`,
`\s*\}` with `\}` not whitespace), so only the maximal run can succeed —
except for `[^}]*\{` in pattern 2, where the engine backtracks from the
longest run; there the continuation `[^}]*\}[^}]*\}[^}]*\}` consumes from
the first `\x7d` onwards and therefore behaves identically for every
backtracking choice inside the brace-free run, so committing to the last
`\x7b` in the run is equivalent. -/

def skipRegexWs (cs : List Char) : List Char := cs.dropWhile isRegexSpace

/-- Expects a literal character sequence, returning the remainder. -/
def expectLit : List Char → List Char → Option (List Char)
  | [], cs => some cs
  | _ :: _, [] => none
  | l :: ls, c :: cs => if c == l then expectLit ls cs else none

/-- Matches the shared head of both patterns,
`\{[\s\n]*"widget"[\s\n]*:[\s\n]*"[^"]+"[\s\n]*,[\s\n]*"data"[\s\n]*:[\s\n]*`,
anchored at the head of the input (`[\s\n]` and `\s` coincide). -/
def matchWidgetHead (cs : List Char) : Option (List Char) :=
  (expectLit ['\x7b'] cs).bind fun cs =>
  (expectLit "\"widget\"".data (skipRegexWs cs)).bind fun cs =>
  (expectLit [':'] (skipRegexWs cs)).bind fun cs =>
  (expectLit ['"'] (skipRegexWs cs)).bind fun cs =>
  let v := cs.takeWhile (· != '"')
  if v.isEmpty then none
  else
  (expectLit ['"'] (cs.drop v.length)).bind fun cs =>
  (expectLit [','] (skipRegexWs cs)).bind fun cs =>
  (expectLit "\"data\"".data (skipRegexWs cs)).bind fun cs =>
  (expectLit [':'] (skipRegexWs cs)).bind fun cs =>
  some (skipRegexWs cs)

/-- Consumes `[^}]*\}`: everything up to and including the next closing
brace. -/
def skipToClose (cs : List Char) : Option (List Char) :=
  expectLit ['\x7d'] (cs.dropWhile (· != '\x7d'))

/-- Matches the tail `\{[^}]*\}\s*\}` of pattern 1. -/
def matchDataTailFlat (cs : List Char) : Option (List Char) :=
  (expectLit ['\x7b'] cs).bind fun cs =>
  (skipToClose cs).bind fun cs =>
  expectLit ['\x7d'] (skipRegexWs cs)

/-- Matches the tail `\{[^}]*\{[^}]*\}[^}]*\}[^}]*\}` of pattern 2. Per the
note above, `[^}]*\{` commits to the last opening brace inside the maximal
brace-free run. -/
def matchDataTailNested (cs : List Char) : Option (List Char) :=
  (expectLit ['\x7b'] cs).bind fun cs =>
  let run := cs.takeWhile (· != '\x7d')
  if run.contains '\x7b' then
    let afterLastOpen := (run.reverse.takeWhile (· != '\x7b')).reverse
    (skipToClose (afterLastOpen ++ cs.drop run.length)).bind fun cs =>
    (skipToClose cs).bind fun cs =>
    skipToClose cs
  else none

/-- Pattern 1 anchored at the head of the input. -/
def matchPattern1At (cs : List Char) : Option (List Char) :=
  (matchWidgetHead cs).bind matchDataTailFlat

/-- Pattern 2 anchored at the head of the input. -/
def matchPattern2At (cs : List Char) : Option (List Char) :=
  (matchWidgetHead cs).bind matchDataTailNested

/-- Leftmost match semantics of `text.match(pattern)` (no `g` flag): the
anchored attempt is tried at each start position in order; on success the
matched substring is returned. -/
def firstMatchAux (patAt : List Char → Option (List Char)) :
    List Char → Option (List Char)
  | [] => (patAt []).map (fun _ => ([] : List Char))
  | c :: cs =>
    match patAt (c :: cs) with
    | some rem => some ((c :: cs).take ((c :: cs).length - rem.length))
    | none => firstMatchAux patAt cs

/-- Widget payloads constructed by the scanner:
`\x7b widgetType: string, data: mapping \x7d` in the specification. -/
structure WidgetData where
  widget : String
  data : Json

/-- Acceptance check repeated at each extraction stage of
`parseWidgetFromText`:
`if (parsed.widget && parsed.data) return \x7b widget: String(parsed.widget), data: parsed.data || \x7b\x7d \x7d`.
The `|| \x7b\x7d` default is kept although `parsed.data` is truthy at that
point. The fuel is only the rendering bound handed to `jsToStringAux`. -/
def widgetDataOfJson (fuel : Nat) (parsed : Json) : Option WidgetData :=
  let wv := getField parsed "widget"
  let dv := getField parsed "data"
  if truthyOpt wv && truthyOpt dv then
    some { widget := jsToStringAux fuel (wv.getD .null)
           data := if truthyOpt dv then dv.getD .null else .obj [] }
  else none

/-- Model of `parseWidgetFromText` (`components/WidgetRenderer.tsx`): the
two regex patterns are tried in order (a match that fails to parse as JSON
or fails the acceptance check falls through to the next stage), then the
entire trimmed text is parsed as JSON. -/
def parseWidgetFromText (text : String) : Option WidgetData :=
  if text == "" then none
  else
    let cs := text.data
    let fuel := cs.length + 1
    let viaP1 := (firstMatchAux matchPattern1At cs).bind fun m =>
      (jsonParse m).bind (widgetDataOfJson fuel)
    let viaP2 := (firstMatchAux matchPattern2At cs).bind fun m =>
      (jsonParse m).bind (widgetDataOfJson fuel)
    let viaWhole := (jsonParse (jsTrim cs)).bind (widgetDataOfJson fuel)
    (viaP1 <|> viaP2) <|> viaWhole

/-! Model of the widget text scanner's per-node step `processMessageContent`
(chat panel component). The DOM is abstracted to the observations the step
actually makes: a text node is its text content together with the class
lists of its ancestor elements (nearest first, the `parentElement` chain);
an element is its concatenated text content together with whether
`querySelector(".chatkit-custom-widget")` finds a descendant. A DOM
mutation is represented explicitly; returning `none` means the step leaves
the DOM untouched. -/

/-- Nodes handed to `processMessageContent`. -/
inductive ScanNode where
  | textNode (textContent : String) (ancestorClassLists : List (List String))
  | elementNode (textContent : String) (hasCustomWidgetDescendant : Bool)

/-- Text content the scanner extracts the payload from. -/
def ScanNode.scanText : ScanNode → String
  | .textNode t _ => t
  | .elementNode t _ => t

/-- DOM mutations `processMessageContent` can perform. The created widget
container carries the widget type and the serialized data as attributes;
both are recorded in the payload. -/
inductive DomMutation where
  | replaceTextParent (parentClassList : List String) (payload : WidgetData)
  | appendToMessageContent (payload : WidgetData)
  | replaceElementContent (payload : WidgetData)

/-- Climb of `while (parent && !parent.classList.contains("chatkit-message-content"))`:
index of the nearest ancestor carrying the class, if any. -/
def findMessageContentAncestor (ancestors : List (List String)) : Option Nat :=
  ancestors.findIdx? (fun classList => classList.contains "chatkit-message-content")

/-- Check `textContent.trim().match(/^[\s\n]*\{/) ? 1 : 0` from the element
branch. -/
def jsonRatioOf (textContent : String) : Nat :=
  match (jsTrim textContent.data).dropWhile isRegexSpace with
  | '\x7b' :: _ => 1
  | _ => 0

/-- Model of `processMessageContent`. `alreadyProcessed` is the membership
test against the `processedMessages` WeakSet. The text branch replaces the
content of the node's immediate parent element once an ancestor with class
`chatkit-message-content` exists (the `messageContent.appendChild`
fallback only runs when the node has no parent element, which cannot
happen once that ancestor was found); whether the React render succeeds or
falls back to the formatted JSON block, the same container replacement is
performed, so the two are not distinguished. The element branch replaces
the element's own content and only fires when the trimmed text starts with
an opening brace. -/
def processMessageContent (alreadyProcessed : Bool) :
    ScanNode → Option DomMutation
  | .textNode textContent ancestors =>
    if alreadyProcessed then none
    else
      match parseWidgetFromText textContent with
      | none => none
      | some widgetData =>
        match findMessageContentAncestor ancestors with
        | none => none
        | some _ =>
          match ancestors with
          | [] => some (.appendToMessageContent widgetData)
          | p :: _ => some (.replaceTextParent p widgetData)
  | .elementNode textContent hasWidget =>
    if alreadyProcessed then none
    else if hasWidget then none
    else
      match parseWidgetFromText textContent with
      | none => none
      | some widgetData =>
        if jsonRatioOf textContent > 0 then
          some (.replaceElementContent widgetData)
        else none

/-! Model of the `ContactCardWidget` view computation
(`components/WidgetRenderer.tsx`): each field is read as
`String(data.f || "")` and the avatar initials are
`name.split(" ").map((n) => n[0]).join("").toUpperCase().slice(0, 2)`. -/

/-- Split of JavaScript `String.prototype.split` with a single-character
separator. -/
def splitOnChar (sep : Char) : List Char → List (List Char)
  | [] => [[]]
  | c :: cs =>
    match splitOnChar sep cs with
    | r :: rs => if c == sep then [] :: r :: rs else (c :: r) :: rs
    | [] => [[c]]

/-- Computation `String(v || "")` used for every contact-card field; the
fuel is the `jsToStringAux` rendering bound. -/
def displayString (fuel : Nat) (v : Option Json) : String :=
  if truthyOpt v then jsToStringAux fuel (v.getD .null) else ""

/-- Avatar initials:
`name.split(" ").map((n) => n[0]).join("").toUpperCase().slice(0, 2)`.
Taking the first character of an empty segment gives `undefined`, which
`join` renders as the empty string. -/
def initialsOf (name : String) : String :=
  let parts := splitOnChar ' ' name.data
  let firsts := parts.map fun p =>
    match p with
    | [] => ([] : List Char)
    | c :: _ => [c]
  ⟨(firsts.flatten.map Char.toUpper).take 2⟩

/-- View computed by `ContactCardWidget` from the payload's `data`. -/
structure ContactCardView where
  name : String
  title : String
  phone : String
  email : String
  initials : String

def ContactCardWidget (fuel : Nat) (data : Json) : ContactCardView :=
  let name := displayString fuel (getField data "name")
  { name := name
    title := displayString fuel (getField data "title")
    phone := displayString fuel (getField data "phone")
    email := displayString fuel (getField data "email")
    initials := initialsOf name }

/-! Model of the error-state aggregator and the panel reset
(chat panel component). -/

/-- Error state: three independent nullable message channels plus the
retryability flag. -/
structure ErrorState where
  script : Option String
  session : Option String
  integration : Option String
  retryable : Bool
deriving DecidableEq

/-- Initial error state `createInitialErrors()`. -/
def createInitialErrors : ErrorState :=
  { script := none, session := none, integration := none, retryable := false }

/-- Partial update `Partial ErrorState`: a field that is `none` is absent
from the object literal; a present field carries the new value. -/
structure ErrorStateUpdates where
  script : Option (Option String) := none
  session : Option (Option String) := none
  integration : Option (Option String) := none
  retryable : Option Bool := none

/-- Model of `setErrorState(updates)`, i.e.
`setErrors((current) => (\x7b ...current, ...updates \x7d))`: the object
spread overrides exactly the fields present in `updates`. -/
def setErrorState (current : ErrorState) (updates : ErrorStateUpdates) : ErrorState :=
  { script := updates.script.getD current.script
    session := updates.session.getD current.session
    integration := updates.integration.getD current.integration
    retryable := updates.retryable.getD current.retryable }

/-- Aggregation `const activeError = errors.session ?? errors.integration`. -/
def activeError (errors : ErrorState) : Option String :=
  match errors.session with
  | some s => some s
  | none => errors.integration

/-- Aggregation `const blockingError = errors.script ?? activeError`. -/
def blockingError (errors : ErrorState) : Option String :=
  match errors.script with
  | some s => some s
  | none => activeError errors

/-- Script readiness axis of the panel. -/
inductive ScriptStatus where
  | pending
  | ready
  | scriptError
deriving DecidableEq

/-- Panel state touched by the full reset: the processed-fact tracking
(`processedFacts` ref), the script status, the session-initialization
flag, the error state and the mount-generation counter
(`widgetInstanceKey`). -/
structure PanelState where
  processedFacts : List String
  scriptStatus : ScriptStatus
  isInitializingSession : Bool
  errors : ErrorState
  widgetInstanceKey : Nat
deriving DecidableEq

/-- Model of `handleResetChat`. `chatkitRegistered` stands for
`window.customElements.get("openai-chatkit")` being defined (the component
runs in a browser, so the `isBrowser` guard holds). -/
def handleResetChat (chatkitRegistered : Bool) (s : PanelState) : PanelState :=
  { processedFacts := []
    scriptStatus := if chatkitRegistered then .ready else .pending
    isInitializingSession := true
    errors := createInitialErrors
    widgetInstanceKey := s.widgetInstanceKey + 1 }

/-! Model of the backend session endpoint
(`app/api/create-session/route.ts`). Environment variables, the generated
UUID and the upstream HTTP response are explicit parameters. The outbound
request construction (URL, headers, body sent to the upstream API) is not
observed by any property below and is not recorded; an upstream network
failure (`fetch` throwing) is likewise outside the model, which always
receives an upstream response. -/

def SESSION_COOKIE_NAME : String := "chatkit_session_id"

def SESSION_COOKIE_MAX_AGE : Nat := 60 * 60 * 24 * 30

def DEFAULT_CHATKIT_BASE : String := "https://api.openai.com"

/-- Environment configuration read by the route. `workflowIdDefault` is
the `WORKFLOW_ID` constant imported from the configuration module (empty
when no default is configured). -/
structure Env where
  localOpenaiApiKey : Option String
  openaiApiKey : Option String
  production : Bool
  chatkitApiBase : Option String
  workflowIdDefault : String

/-- Incoming request: method, `cookie` header, raw body text (empty when
the body is empty). -/
structure ApiRequest where
  method : String
  cookieHeader : Option String
  bodyText : String

/-- Upstream response the route's `fetch` resolves to; `bodyJson` is the
result of `.json()`, `none` when that call rejects (non-JSON body). -/
structure UpstreamResponse where
  status : Nat
  statusText : String
  bodyJson : Option Json

/-- Outgoing response: status, JSON body, optional `Set-Cookie` header
(every response carries `Content-Type: application/json`). -/
structure ApiResponse where
  status : Nat
  body : Json
  setCookie : Option String

/-- Truthiness of a JavaScript `string | undefined` value. -/
def strTruthy : Option String → Bool
  | none => false
  | some s => s != ""

/-- Check `c.isAlphanum` plus the characters `encodeURIComponent` leaves
unescaped (code point 39 is the apostrophe). -/
def isUriUnreserved (c : Char) : Bool :=
  c.isAlphanum || c == '-' || c == '_' || c == '.' || c == '!' ||
    c == '~' || c == '*' || c.toNat == 39 || c == '(' || c == ')'

def hexDigitUpper (n : Nat) : Char :=
  if n < 10 then Char.ofNat (48 + n) else Char.ofNat (55 + n)

/-- UTF-8 encoding of one code point. -/
def utf8Bytes (c : Char) : List Nat :=
  let n := c.toNat
  if n < 0x80 then [n]
  else if n < 0x800 then [0xC0 + n / 0x40, 0x80 + n % 0x40]
  else if n < 0x10000 then
    [0xE0 + n / 0x1000, 0x80 + (n / 0x40) % 0x40, 0x80 + n % 0x40]
  else
    [0xF0 + n / 0x40000, 0x80 + (n / 0x1000) % 0x40,
     0x80 + (n / 0x40) % 0x40, 0x80 + n % 0x40]

/-- Model of `encodeURIComponent`. -/
def encodeURIComponent (s : String) : String :=
  ⟨s.data.flatMap fun c =>
    if isUriUnreserved c then [c]
    else (utf8Bytes c).flatMap fun b =>
      ['%', hexDigitUpper (b / 16), hexDigitUpper (b % 16)]⟩

/-- Join with a single-character separator (`Array.prototype.join("=")`). -/
def joinWithChar (sep : Char) : List (List Char) → List Char
  | [] => []
  | [x] => x
  | x :: xs => x ++ sep :: joinWithChar sep xs

/-- Model of `getCookieValue`: split the header on `;`, split each cookie
on `=`, skip entries with an empty name or no `=`, and return the
re-joined trimmed value of the first name match. -/
def getCookieValue (cookieHeader : Option String) (name : String) : Option String :=
  match cookieHeader with
  | none => none
  | some header => findCookieIn (splitOnChar ';' header.data) name
where
  findCookieIn : List (List Char) → String → Option String
    | [], _ => none
    | cookie :: rest, name =>
      match splitOnChar '=' cookie with
      | [] => findCookieIn rest name
      | rawName :: valueParts =>
        if rawName.isEmpty || valueParts.isEmpty then findCookieIn rest name
        else if (⟨jsTrim rawName⟩ : String) == name then
          some ⟨jsTrim (joinWithChar '=' valueParts)⟩
        else findCookieIn rest name

/-- Model of `serializeSessionCookie`. -/
def serializeSessionCookie (production : Bool) (value : String) : String :=
  let attributes := [
    SESSION_COOKIE_NAME ++ "=" ++ encodeURIComponent value,
    "Path=/",
    "Max-Age=" ++ toString SESSION_COOKIE_MAX_AGE,
    "HttpOnly",
    "SameSite=Lax"]
  let attributes := if production then attributes ++ ["Secure"] else attributes
  String.intercalate "; " attributes

/-- Model of `resolveUserId`: reuse a truthy cookie value, otherwise use
the generated identifier and serialize a cookie for it.
`generatedUuid` stands for `crypto.randomUUID()` (or its
`Math.random`-based fallback). -/
def resolveUserId (production : Bool) (cookieHeader : Option String)
    (generatedUuid : String) : String × Option String :=
  let existing := getCookieValue cookieHeader SESSION_COOKIE_NAME
  if strTruthy existing then (existing.getD "", none)
  else (generatedUuid, some (serializeSessionCookie production generatedUuid))

/-- Model of `safeParseJson`: `null` for an empty body or a JSON parse
failure. -/
def safeParseJson (text : String) : Option Json :=
  if text == "" then none
  else jsonParse text.data

/-- Optional chaining `o?.[key]` over a possibly-nullish value (`none`
plays both `undefined` and the `null` result of `safeParseJson`). -/
def chainField (o : Option Json) (key : String) : Option Json :=
  match o with
  | none => none
  | some .null => none
  | some j => getField j key

/-- Nullish coalescing `a ?? b`. -/
def coalesce (a : Option Json) (b : Option Json) : Option Json :=
  match a with
  | none => b
  | some .null => b
  | some v => some v

/-- Computation `parsedBody?.user?.trim()`. Calling `.trim()` on a
non-string value throws a `TypeError`, which the route's outer `catch`
turns into the generic 500 response; the `Except` error marks that path. -/
def jsTrimmedUser : Option Json → Except Unit (Option String)
  | none => .ok none
  | some .null => .ok none
  | some (.str s) => .ok (some ⟨jsTrim s.data⟩)
  | some _ => .error ()

/-- Substring test `hay.includes(needle)`. -/
def containsSub (needle : List Char) : List Char → Bool
  | [] => needle.isEmpty
  | c :: cs => (needle.isPrefixOf (c :: cs)) || containsSub needle cs

/-- Selection of a JSON value only when it is a string (every
`typeof x === "string"` probe of `extractUpstreamError`). -/
def stringOf : Option Json → Option String
  | some (.str s) => some s
  | _ => none

/-- Probe `x.message` restricted to string results (the
`x && typeof x === "object" && "message" in x && typeof x.message === "string"`
test: property access on a non-object comes back undefined here, so the
guards only skip probes that would fail anyway). -/
def messageOf (v : Option Json) : Option String :=
  stringOf (v.bind fun e => getField e "message")

/-- Model of `extractUpstreamError`: probe `error`, `error.message`,
`details`, `details.error`, `details.error.message`, `message` in order,
returning the first string found. -/
def extractUpstreamError (payload : Option Json) : Option String :=
  match payload with
  | none => none
  | some .null => none
  | some p =>
    let errorVal := getField p "error"
    let details := getField p "details"
    let nested := details.bind fun d => getField d "error"
    (stringOf errorVal).orElse fun _ =>
    (messageOf errorVal).orElse fun _ =>
    (stringOf details).orElse fun _ =>
    (stringOf nested).orElse fun _ =>
    (messageOf nested).orElse fun _ =>
    stringOf (getField p "message")

/-- Model of `methodNotAllowedResponse`. -/
def methodNotAllowedResponse : ApiResponse :=
  { status := 405
    body := .obj [("error", .str "Method Not Allowed")]
    setCookie := none }

/-- Model of `buildJsonResponse` (the `headers` argument is always the
constant JSON content type and is folded into `ApiResponse`). -/
def buildJsonResponse (payload : Json) (status : Nat)
    (sessionCookie : Option String) : ApiResponse :=
  { status := status, body := payload, setCookie := sessionCookie }

/-- Response for a missing server secret, built with a bare
`new Response(...)`: no session cookie is attached. The non-production
`debug` field (a listing of environment variable names) is outside the
modelled environment and omitted. -/
def missingKeyResponse : ApiResponse :=
  { status := 500
    body := .obj [
      ("error", .str "Missing LOCAL_OPENAI_API_KEY or OPENAI_API_KEY environment variable"),
      ("hint", .str "Please set either LOCAL_OPENAI_API_KEY or OPENAI_API_KEY in your environment settings (Amplify Console or .env.local for local development)")]
    setCookie := none }

/-- Check `Response.ok`: status in the 200-299 range. -/
def upstreamOk (u : UpstreamResponse) : Bool :=
  200 ≤ u.status && u.status ≤ 299

/-- Key resolution
`process.env.LOCAL_OPENAI_API_KEY || process.env.OPENAI_API_KEY`. -/
def resolvedApiKey (env : Env) : Option String :=
  if strTruthy env.localOpenaiApiKey then env.localOpenaiApiKey
  else env.openaiApiKey

/-- Resolution
`parsedBody?.workflow?.id ?? parsedBody?.workflowId ?? WORKFLOW_ID`. -/
def resolvedWorkflowIdOf (env : Env) (parsedBody : Option Json) : Json :=
  match coalesce (chainField (chainField parsedBody "workflow") "id")
      (coalesce (chainField parsedBody "workflowId")
        (some (.str env.workflowIdDefault))) with
  | some v => v
  | none => .str env.workflowIdDefault

/-- Selection `parsedBody?.user?.trim() || resolvedUserId`. -/
def userIdOf (bodyUser : Option String) (resolvedUserId : String) : String :=
  if strTruthy bodyUser then bodyUser.getD "" else resolvedUserId

/-- Model of the route's `POST` handler. -/
def POST (env : Env) (req : ApiRequest) (generatedUuid : String)
    (upstream : UpstreamResponse) : ApiResponse :=
  if req.method != "POST" then methodNotAllowedResponse
  else if !strTruthy (resolvedApiKey env) then missingKeyResponse
  else
    let parsedBody := safeParseJson req.bodyText
    let resolved := resolveUserId env.production req.cookieHeader generatedUuid
    let sessionCookie := resolved.2
    match jsTrimmedUser (chainField parsedBody "user") with
    | .error _ =>
      buildJsonResponse (.obj [("error", .str "Unexpected error")]) 500 sessionCookie
    | .ok bodyUser =>
        let userId := userIdOf bodyUser resolved.1
        let resolvedWorkflowId : Json := resolvedWorkflowIdOf env parsedBody
        if !truthy resolvedWorkflowId then
          buildJsonResponse (.obj [("error", .str "Missing workflow id")]) 400 sessionCookie
        else if userId == "" || (⟨jsTrim userId.data⟩ : String) == "" then
          buildJsonResponse (.obj [("error", .str "Missing or empty user id")]) 400 sessionCookie
        else
          let fuel := req.bodyText.data.length + 1
          let upstreamJson := upstream.bodyJson.getD (.obj [])
          if !upstreamOk upstream then
            let errorMessage := (extractUpstreamError (some upstreamJson)).getD
              ("Failed to create session: " ++ upstream.statusText)
            let helpfulMessage :=
              if containsSub "not found".data errorMessage.data then
                "Workflow not found: " ++ jsToStringAux fuel resolvedWorkflowId ++
                  ". Please verify: 1) The workflow ID is correct, 2) The workflow is published in Agent Builder, 3) The API key has access to this workflow in the same organization/project."
              else if upstream.status == 401 || upstream.status == 403 then
                "Authentication failed. Please verify your LOCAL_OPENAI_API_KEY is correct and has access to the workflow. Status: " ++
                  toString upstream.status
              else errorMessage
            buildJsonResponse
              (.obj [("error", .str helpfulMessage), ("details", upstreamJson),
                     ("workflowId", resolvedWorkflowId)])
              upstream.status sessionCookie
          else
            let clientSecret := (getField upstreamJson "client_secret").getD .null
            let expiresAfter := (getField upstreamJson "expires_after").getD .null
            buildJsonResponse
              (.obj [("client_secret", clientSecret), ("expires_after", expiresAfter)])
              200 sessionCookie

/-- Model of the route's `GET` handler. -/
def GET : ApiResponse := methodNotAllowedResponse

/-! Theorems for the specification's claims. -/

/-- C1: for every error state, the displayed blocking error equals
`script ?? (session ?? integration)` — a single optional message, so at
most one message is displayed at a time — and whenever `script` is
non-null it is the displayed blocking error regardless of `session` and
`integration`. -/
theorem blockingError_precedence (errors : ErrorState) :
    blockingError errors = errors.script.or (errors.session.or errors.integration) ∧
    (∀ m, errors.script = some m → blockingError errors = some m) := by
  constructor
  · rcases errors with ⟨s, se, i, r⟩
    cases s <;> cases se <;> simp [blockingError, activeError, Option.or]
  · intro m h
    simp [blockingError, h]

/-- Witness for C1 at a state with all three channels populated. -/
theorem blockingError_precedence_witness :
    blockingError ⟨some "script failed", some "session failed",
      some "integration failed", true⟩ = some "script failed" :=
  (blockingError_precedence _).2 "script failed" rfl

/-- C2: `setErrorState` shallow-merges: every field absent from the
partial update keeps its current value, and every present field takes
exactly the value given in the partial. -/
theorem setErrorState_shallow_merge (current : ErrorState) (updates : ErrorStateUpdates) :
    (updates.script = none → (setErrorState current updates).script = current.script) ∧
    (∀ v, updates.script = some v → (setErrorState current updates).script = v) ∧
    (updates.session = none → (setErrorState current updates).session = current.session) ∧
    (∀ v, updates.session = some v → (setErrorState current updates).session = v) ∧
    (updates.integration = none → (setErrorState current updates).integration = current.integration) ∧
    (∀ v, updates.integration = some v → (setErrorState current updates).integration = v) ∧
    (updates.retryable = none → (setErrorState current updates).retryable = current.retryable) ∧
    (∀ b, updates.retryable = some b → (setErrorState current updates).retryable = b) := by
  refine ⟨fun h => ?sn, fun v h => ?sv, fun h => ?en, fun v h => ?ev,
    fun h => ?gn, fun v h => ?gv, fun h => ?rn, fun b h => ?rv⟩ <;>
  simp [setErrorState, h]

/-- Witness for C2: merging a partial that clears `script` and replaces
`session` leaves `integration` and `retryable` untouched. -/
theorem setErrorState_shallow_merge_witness :
    (setErrorState ⟨some "boom", none, some "integration down", true⟩
      ⟨some none, some (some "new session error"), none, none⟩).script = none ∧
    (setErrorState ⟨some "boom", none, some "integration down", true⟩
      ⟨some none, some (some "new session error"), none, none⟩).session = some "new session error" ∧
    (setErrorState ⟨some "boom", none, some "integration down", true⟩
      ⟨some none, some (some "new session error"), none, none⟩).integration = some "integration down" ∧
    (setErrorState ⟨some "boom", none, some "integration down", true⟩
      ⟨some none, some (some "new session error"), none, none⟩).retryable = true := by
  have h := setErrorState_shallow_merge
    ⟨some "boom", none, some "integration down", true⟩
    ⟨some none, some (some "new session error"), none, none⟩
  exact ⟨h.2.1 none rfl, h.2.2.2.1 _ rfl, h.2.2.2.2.1 rfl, h.2.2.2.2.2.2.1 rfl⟩

/-- C3 counterexample: the full reset is not idempotent on the whole panel
state, because the mount-generation counter `widgetInstanceKey` increments
on every invocation; from counter 0, one reset ends at 1 and two resets
end at 2. -/
theorem handleResetChat_not_idempotent :
    handleResetChat true (handleResetChat true
        ⟨["fact-1"], .pending, false, ⟨some "boom", none, none, true⟩, 0⟩) ≠
      handleResetChat true
        ⟨["fact-1"], .pending, false, ⟨some "boom", none, none, true⟩, 0⟩ := by
  decide

/-- C3 (amended): invoking reset twice in a row agrees with invoking it
once on every component except the mount-generation counter — the error
fields are all cleared, `initializing` is true, the processed-node
tracking is empty and the recomputed script status coincides — while the
counter increments once more on the second invocation. -/
theorem handleResetChat_idempotent_apart_from_key (chatkitRegistered : Bool) (s : PanelState) :
    (handleResetChat chatkitRegistered (handleResetChat chatkitRegistered s)).processedFacts =
      (handleResetChat chatkitRegistered s).processedFacts ∧
    (handleResetChat chatkitRegistered (handleResetChat chatkitRegistered s)).scriptStatus =
      (handleResetChat chatkitRegistered s).scriptStatus ∧
    (handleResetChat chatkitRegistered (handleResetChat chatkitRegistered s)).isInitializingSession =
      (handleResetChat chatkitRegistered s).isInitializingSession ∧
    (handleResetChat chatkitRegistered (handleResetChat chatkitRegistered s)).errors =
      (handleResetChat chatkitRegistered s).errors ∧
    (handleResetChat chatkitRegistered s).processedFacts = [] ∧
    (handleResetChat chatkitRegistered s).isInitializingSession = true ∧
    (handleResetChat chatkitRegistered s).errors = createInitialErrors ∧
    (handleResetChat chatkitRegistered (handleResetChat chatkitRegistered s)).widgetInstanceKey =
      (handleResetChat chatkitRegistered s).widgetInstanceKey + 1 := by
  simp [handleResetChat]

/-- C4: when no widget payload is extracted from a node's text, the
scanner step performs no DOM mutation — text that does not match the
micro-format is never removed or altered. -/
theorem processMessageContent_no_mutation_without_payload
    (alreadyProcessed : Bool) (node : ScanNode)
    (h : parseWidgetFromText node.scanText = none) :
    processMessageContent alreadyProcessed node = none := by
  cases node with
  | textNode t ancestors =>
    simp only [ScanNode.scanText] at h
    simp [processMessageContent, h]
  | elementNode t hasWidget =>
    simp only [ScanNode.scanText] at h
    simp [processMessageContent, h]

/-- Witness for C4: the text `hello there` contains no JSON object, yields
no payload, and triggers no mutation. -/
theorem processMessageContent_no_mutation_witness :
    parseWidgetFromText "hello there" = none ∧
    processMessageContent false
      (.textNode "hello there" [["chatkit-message-content"]]) = none :=
  ⟨by rfl, processMessageContent_no_mutation_without_payload false _ (by rfl)⟩

/-- C10: extraction on the exact contact-card text yields the
`contact_card` payload with `name`, `phone` and `email` preserved, and the
contact-card view computed from that payload (under any rendering fuel)
shows those fields unchanged with avatar initials `JD`. -/
theorem contactCard_extraction_and_initials :
    parseWidgetFromText
        "\x7b\"widget\":\"contact_card\",\"data\":\x7b\"name\":\"Jane Doe\",\"phone\":\"555-1234\",\"email\":\"jane@x.com\"\x7d\x7d" =
      some ⟨"contact_card",
        .obj [("name", .str "Jane Doe"), ("phone", .str "555-1234"),
              ("email", .str "jane@x.com")]⟩ ∧
    ∀ fuel,
      (ContactCardWidget fuel
          (.obj [("name", .str "Jane Doe"), ("phone", .str "555-1234"),
                 ("email", .str "jane@x.com")])).name = "Jane Doe" ∧
      (ContactCardWidget fuel
          (.obj [("name", .str "Jane Doe"), ("phone", .str "555-1234"),
                 ("email", .str "jane@x.com")])).phone = "555-1234" ∧
      (ContactCardWidget fuel
          (.obj [("name", .str "Jane Doe"), ("phone", .str "555-1234"),
                 ("email", .str "jane@x.com")])).email = "jane@x.com" ∧
      (ContactCardWidget fuel
          (.obj [("name", .str "Jane Doe"), ("phone", .str "555-1234"),
                 ("email", .str "jane@x.com")])).initials = "JD" := by
  refine ⟨by rfl, fun fuel => ?_⟩
  cases fuel <;> exact ⟨rfl, rfl, rfl, rfl⟩

/-- Auxiliary: once the method and secret checks pass, every response the
handler can produce carries the session cookie computed by
`resolveUserId`, whatever branch is taken. -/
theorem POST_setCookie_after_checks (env : Env) (req : ApiRequest)
    (generatedUuid : String) (upstream : UpstreamResponse)
    (hm : req.method = "POST") (hk : strTruthy (resolvedApiKey env) = true) :
    (POST env req generatedUuid upstream).setCookie =
      (resolveUserId env.production req.cookieHeader generatedUuid).2 := by
  have hb : (req.method != "POST") = false := by simp [hm]
  unfold POST
  simp only [hb, Bool.false_eq_true, if_false, hk, Bool.not_true]
  cases hu : jsTrimmedUser (chainField (safeParseJson req.bodyText) "user") with
  | error e => simp [buildJsonResponse]
  | ok bodyUser =>
    simp only [buildJsonResponse]
    split <;> try rfl
    split <;> try rfl
    split <;> rfl

/-- C5 counterexample: a POST whose body carries a non-string `user` (here
the number 5) and whose resolved workflow id is missing returns the
generic 500, not the claimed 400 — `parsedBody?.user?.trim()` throws a
`TypeError` that the outer catch turns into the 500 response before the
workflow check runs. -/
theorem createSession_nonstring_user_500 :
    truthy (resolvedWorkflowIdOf ⟨some "sk-test", none, false, none, ""⟩
      (safeParseJson "\x7b\"user\":5\x7d")) = false ∧
    (POST ⟨some "sk-test", none, false, none, ""⟩
      ⟨"POST", none, "\x7b\"user\":5\x7d"⟩ "u-1"
      ⟨200, "OK", some (.obj [])⟩).status = 500 := by
  exact ⟨by rfl, by rfl⟩

/-- C5 (amended): the session endpoint returns 405 for non-POST requests;
500 when no upstream secret is configured under either environment
variable name; 500 for a POST whose body carries a non-string, non-null
`user` field (the `.trim()` `TypeError` is caught as the generic 500
before the workflow check); for every other POST, 400 when the resolved
workflow id is missing or the user id is missing or empty — both checked
before the upstream call, so the result is independent of the upstream
response — and otherwise the upstream status code is passed through on
upstream failure. -/
theorem createSession_status_contract (env : Env) (req : ApiRequest)
    (generatedUuid : String) (upstream upstream2 : UpstreamResponse)
    (bodyUser : Option String) :
    (req.method ≠ "POST" → (POST env req generatedUuid upstream).status = 405) ∧
    GET.status = 405 ∧
    (req.method = "POST" → strTruthy (resolvedApiKey env) = false →
      (POST env req generatedUuid upstream).status = 500) ∧
    (req.method = "POST" → strTruthy (resolvedApiKey env) = true →
      jsTrimmedUser (chainField (safeParseJson req.bodyText) "user") = .error () →
      (POST env req generatedUuid upstream).status = 500) ∧
    (req.method = "POST" → strTruthy (resolvedApiKey env) = true →
      jsTrimmedUser (chainField (safeParseJson req.bodyText) "user") = .ok bodyUser →
      truthy (resolvedWorkflowIdOf env (safeParseJson req.bodyText)) = false →
      (POST env req generatedUuid upstream).status = 400 ∧
      POST env req generatedUuid upstream = POST env req generatedUuid upstream2) ∧
    (req.method = "POST" → strTruthy (resolvedApiKey env) = true →
      jsTrimmedUser (chainField (safeParseJson req.bodyText) "user") = .ok bodyUser →
      truthy (resolvedWorkflowIdOf env (safeParseJson req.bodyText)) = true →
      (userIdOf bodyUser (resolveUserId env.production req.cookieHeader generatedUuid).1 == "" ||
        (⟨jsTrim (userIdOf bodyUser
          (resolveUserId env.production req.cookieHeader generatedUuid).1).data⟩ : String) == "") = true →
      (POST env req generatedUuid upstream).status = 400 ∧
      POST env req generatedUuid upstream = POST env req generatedUuid upstream2) ∧
    (req.method = "POST" → strTruthy (resolvedApiKey env) = true →
      jsTrimmedUser (chainField (safeParseJson req.bodyText) "user") = .ok bodyUser →
      truthy (resolvedWorkflowIdOf env (safeParseJson req.bodyText)) = true →
      (userIdOf bodyUser (resolveUserId env.production req.cookieHeader generatedUuid).1 == "" ||
        (⟨jsTrim (userIdOf bodyUser
          (resolveUserId env.production req.cookieHeader generatedUuid).1).data⟩ : String) == "") = false →
      upstreamOk upstream = false →
      (POST env req generatedUuid upstream).status = upstream.status) := by
  refine ⟨?meth, rfl, ?key, ?trimerr, ?workflow, ?user, ?pass⟩
  · intro h
    have hb : (req.method != "POST") = true := by simp [h]
    unfold POST
    simp [hb, methodNotAllowedResponse]
  · intro hm hk
    have hb : (req.method != "POST") = false := by simp [hm]
    unfold POST
    simp [hb, hk, missingKeyResponse]
  · intro hm hk herr
    have hb : (req.method != "POST") = false := by simp [hm]
    unfold POST
    simp [hb, hk, herr, buildJsonResponse]
  · intro hm hk hu hw
    have hb : (req.method != "POST") = false := by simp [hm]
    unfold POST
    simp [hb, hk, hu, hw, buildJsonResponse]
  · intro hm hk hu hw he
    have hb : (req.method != "POST") = false := by simp [hm]
    unfold POST
    simp [hb, hk, hu, hw, he, buildJsonResponse]
  · intro hm hk hu hw he hok
    have hb : (req.method != "POST") = false := by simp [hm]
    unfold POST
    simp [hb, hk, hu, hw, he, hok, buildJsonResponse]

/-- Witness for C5: each status case at a concrete request — a GET gets
405, a POST without a configured secret gets 500, a POST whose body
carries the non-string user `5` gets 500, a POST with an empty workflow
default and empty body gets 400, a POST whose user id resolves empty gets
400 (both 400s independent of the upstream response), and a POST reaching
a failing upstream passes the 404 through. -/
theorem createSession_status_contract_witness :
    (POST ⟨some "sk-test", none, false, none, "wf_default"⟩ ⟨"GET", none, ""⟩ "u-1"
      ⟨200, "OK", some (.obj [])⟩).status = 405 ∧
    (POST ⟨none, some "", false, none, "wf_default"⟩ ⟨"POST", none, ""⟩ "u-1"
      ⟨200, "OK", some (.obj [])⟩).status = 500 ∧
    (POST ⟨some "sk-test", none, false, none, "wf_default"⟩
      ⟨"POST", none, "\x7b\"user\":5\x7d"⟩ "u-1"
      ⟨200, "OK", some (.obj [])⟩).status = 500 ∧
    (POST ⟨some "sk-test", none, false, none, ""⟩ ⟨"POST", none, ""⟩ "u-1"
      ⟨200, "OK", some (.obj [])⟩).status = 400 ∧
    POST ⟨some "sk-test", none, false, none, ""⟩ ⟨"POST", none, ""⟩ "u-1"
      ⟨200, "OK", some (.obj [])⟩ =
      POST ⟨some "sk-test", none, false, none, ""⟩ ⟨"POST", none, ""⟩ "u-1"
        ⟨503, "Service Unavailable", none⟩ ∧
    (POST ⟨some "sk-test", none, false, none, "wf_default"⟩ ⟨"POST", none, ""⟩ ""
      ⟨200, "OK", some (.obj [])⟩).status = 400 ∧
    (POST ⟨some "sk-test", none, false, none, "wf_default"⟩ ⟨"POST", none, ""⟩ "u-1"
      ⟨404, "Not Found", some (.obj [])⟩).status = 404 := by
  have h405 := (createSession_status_contract
    ⟨some "sk-test", none, false, none, "wf_default"⟩ ⟨"GET", none, ""⟩ "u-1"
    ⟨200, "OK", some (.obj [])⟩ ⟨200, "OK", some (.obj [])⟩ none).1 (by decide)
  have h500 := (createSession_status_contract
    ⟨none, some "", false, none, "wf_default"⟩ ⟨"POST", none, ""⟩ "u-1"
    ⟨200, "OK", some (.obj [])⟩ ⟨200, "OK", some (.obj [])⟩ none).2.2.1 rfl rfl
  have h500u := (createSession_status_contract
    ⟨some "sk-test", none, false, none, "wf_default"⟩
    ⟨"POST", none, "\x7b\"user\":5\x7d"⟩ "u-1"
    ⟨200, "OK", some (.obj [])⟩ ⟨200, "OK", some (.obj [])⟩ none).2.2.2.1
    rfl rfl (by rfl)
  have h400w := (createSession_status_contract
    ⟨some "sk-test", none, false, none, ""⟩ ⟨"POST", none, ""⟩ "u-1"
    ⟨200, "OK", some (.obj [])⟩ ⟨503, "Service Unavailable", none⟩ none).2.2.2.2.1
    rfl rfl rfl rfl
  have h400u := (createSession_status_contract
    ⟨some "sk-test", none, false, none, "wf_default"⟩ ⟨"POST", none, ""⟩ ""
    ⟨200, "OK", some (.obj [])⟩ ⟨200, "OK", some (.obj [])⟩ none).2.2.2.2.2.1
    rfl rfl rfl rfl rfl
  have hpass := (createSession_status_contract
    ⟨some "sk-test", none, false, none, "wf_default"⟩ ⟨"POST", none, ""⟩ "u-1"
    ⟨404, "Not Found", some (.obj [])⟩ ⟨404, "Not Found", some (.obj [])⟩ none).2.2.2.2.2.2
    rfl rfl rfl rfl rfl rfl
  exact ⟨h405, h500, h500u, h400w.1, h400w.2, h400u.1, hpass⟩

/-- C6 counterexample: an upstream response accepted as successful whose
body lacks `client_secret` produces a 200 response whose `client_secret`
is JSON null, not a string. -/
theorem createSession_client_secret_not_string :
    (POST ⟨some "sk-test", none, false, none, "wf_default"⟩ ⟨"POST", none, ""⟩ "u-1"
      ⟨200, "OK", some (.obj [])⟩).status = 200 ∧
    getField (POST ⟨some "sk-test", none, false, none, "wf_default"⟩ ⟨"POST", none, ""⟩ "u-1"
      ⟨200, "OK", some (.obj [])⟩).body "client_secret" = some Json.null := by
  exact ⟨by rfl, by rfl⟩

/-- C6 (amended): for every upstream response accepted as successful, the
endpoint's 200 response forwards the upstream `client_secret` and
`expires_after` verbatim, defaulting to JSON null when absent; the
forwarded `client_secret` is a string exactly when the upstream supplied
one (stringness is not enforced). -/
theorem createSession_success_forwards (env : Env) (req : ApiRequest)
    (generatedUuid : String) (upstream : UpstreamResponse) (bodyUser : Option String)
    (hm : req.method = "POST") (hk : strTruthy (resolvedApiKey env) = true)
    (hu : jsTrimmedUser (chainField (safeParseJson req.bodyText) "user") = .ok bodyUser)
    (hw : truthy (resolvedWorkflowIdOf env (safeParseJson req.bodyText)) = true)
    (he : (userIdOf bodyUser (resolveUserId env.production req.cookieHeader generatedUuid).1 == "" ||
      (⟨jsTrim (userIdOf bodyUser
        (resolveUserId env.production req.cookieHeader generatedUuid).1).data⟩ : String) == "") = false)
    (hok : upstreamOk upstream = true) :
    (POST env req generatedUuid upstream).status = 200 ∧
    (POST env req generatedUuid upstream).body =
      .obj [("client_secret", (getField (upstream.bodyJson.getD (.obj [])) "client_secret").getD .null),
            ("expires_after", (getField (upstream.bodyJson.getD (.obj [])) "expires_after").getD .null)] ∧
    (∀ s, getField (upstream.bodyJson.getD (.obj [])) "client_secret" = some (.str s) →
      getField (POST env req generatedUuid upstream).body "client_secret" = some (.str s)) := by
  have hb : (req.method != "POST") = false := by simp [hm]
  have hbody : (POST env req generatedUuid upstream).body =
      .obj [("client_secret", (getField (upstream.bodyJson.getD (.obj [])) "client_secret").getD .null),
            ("expires_after", (getField (upstream.bodyJson.getD (.obj [])) "expires_after").getD .null)] := by
    unfold POST
    simp [hb, hk, hu, hw, he, hok, buildJsonResponse]
  refine ⟨?_, hbody, ?_⟩
  · unfold POST
    simp [hb, hk, hu, hw, he, hok, buildJsonResponse]
  · intro s hs
    rw [hbody, hs]
    simp +decide [getField, lookupLast]

/-- Witness for C6 on an upstream body carrying both fields. -/
theorem createSession_success_forwards_witness :
    (POST ⟨some "sk-test", none, false, none, "wf_default"⟩ ⟨"POST", none, ""⟩ "u-1"
      ⟨200, "OK", some (.obj [("client_secret", .str "cs_123"),
        ("expires_after", .num 600 0)])⟩).status = 200 ∧
    getField (POST ⟨some "sk-test", none, false, none, "wf_default"⟩ ⟨"POST", none, ""⟩ "u-1"
      ⟨200, "OK", some (.obj [("client_secret", .str "cs_123"),
        ("expires_after", .num 600 0)])⟩).body "client_secret" = some (.str "cs_123") := by
  have h := createSession_success_forwards
    ⟨some "sk-test", none, false, none, "wf_default"⟩ ⟨"POST", none, ""⟩ "u-1"
    ⟨200, "OK", some (.obj [("client_secret", .str "cs_123"), ("expires_after", .num 600 0)])⟩
    none rfl rfl rfl rfl rfl rfl
  exact ⟨h.1, h.2.2 "cs_123" (by rfl)⟩

/-- C7 counterexample: a POST with no caller-identity cookie but no
configured upstream secret is answered by the early 500 response, which
carries no `Set-Cookie` header. -/
theorem createSession_cookie_missing_on_500 :
    getCookieValue none SESSION_COOKIE_NAME = none ∧
    (POST ⟨none, none, false, none, "wf_default"⟩ ⟨"POST", none, ""⟩ "u-1"
      ⟨200, "OK", some (.obj [])⟩).setCookie = none ∧
    (POST ⟨none, none, false, none, "wf_default"⟩ ⟨"POST", none, ""⟩ "u-1"
      ⟨200, "OK", some (.obj [])⟩).status = 500 := by
  exact ⟨rfl, by rfl, by rfl⟩

/-- C7 (amended): for every POST that passes the method and secret checks,
a request without a caller-identity cookie gets a `Set-Cookie` header
whose attribute list starts with the cookie pair and continues with
`Path=/`, `Max-Age=2592000`, `HttpOnly`, `SameSite=Lax`, ending with
`Secure` exactly in production, while a request presenting that cookie
gets no `Set-Cookie`; the early 405 and missing-secret 500 responses never
carry one. -/
theorem createSession_cookie_behavior (env : Env) (req : ApiRequest)
    (generatedUuid : String) (upstream : UpstreamResponse)
    (hm : req.method = "POST") (hk : strTruthy (resolvedApiKey env) = true) :
    (strTruthy (getCookieValue req.cookieHeader SESSION_COOKIE_NAME) = false →
      (POST env req generatedUuid upstream).setCookie =
        some (serializeSessionCookie env.production generatedUuid)) ∧
    (strTruthy (getCookieValue req.cookieHeader SESSION_COOKIE_NAME) = true →
      (POST env req generatedUuid upstream).setCookie = none) ∧
    methodNotAllowedResponse.setCookie = none ∧
    missingKeyResponse.setCookie = none ∧
    ∃ attrs : List String,
      serializeSessionCookie env.production generatedUuid = String.intercalate "; " attrs ∧
      attrs.head? = some (SESSION_COOKIE_NAME ++ "=" ++ encodeURIComponent generatedUuid) ∧
      "Path=/" ∈ attrs ∧ "Max-Age=2592000" ∈ attrs ∧ "HttpOnly" ∈ attrs ∧
      "SameSite=Lax" ∈ attrs ∧
      (env.production = true → attrs.getLast? = some "Secure") ∧
      (env.production = false → attrs.getLast? = some "SameSite=Lax") ∧
      attrs.length = (if env.production then 6 else 5) := by
  refine ⟨?_, ?_, rfl, rfl, ?_⟩
  · intro hc
    rw [POST_setCookie_after_checks env req generatedUuid upstream hm hk]
    simp [resolveUserId, hc]
  · intro hc
    rw [POST_setCookie_after_checks env req generatedUuid upstream hm hk]
    simp [resolveUserId, hc]
  · cases hp : env.production with
    | false =>
      refine ⟨[SESSION_COOKIE_NAME ++ "=" ++ encodeURIComponent generatedUuid, "Path=/",
        "Max-Age=2592000", "HttpOnly", "SameSite=Lax"],
        ?ser, rfl, ?path, ?age, ?http, ?same, ?sec, ?nosec, ?len⟩
      · simp [serializeSessionCookie, hp]
        rfl
      · exact .tail _ (.head _)
      · exact .tail _ (.tail _ (.head _))
      · exact .tail _ (.tail _ (.tail _ (.head _)))
      · exact .tail _ (.tail _ (.tail _ (.tail _ (.head _))))
      · intro hcontra
        simp at hcontra
      · intro _
        rfl
      · rfl
    | true =>
      refine ⟨[SESSION_COOKIE_NAME ++ "=" ++ encodeURIComponent generatedUuid, "Path=/",
        "Max-Age=2592000", "HttpOnly", "SameSite=Lax", "Secure"],
        ?pser, rfl, ?ppath, ?page, ?phttp, ?psame, ?psec, ?pnosec, ?plen⟩
      · simp [serializeSessionCookie, hp]
        rfl
      · exact .tail _ (.head _)
      · exact .tail _ (.tail _ (.head _))
      · exact .tail _ (.tail _ (.tail _ (.head _)))
      · exact .tail _ (.tail _ (.tail _ (.tail _ (.head _))))
      · intro _
        rfl
      · intro hcontra
        simp at hcontra
      · rfl

/-- Witness for C7: first call without the cookie receives the serialized
cookie header, second call presenting it receives none. -/
theorem createSession_cookie_behavior_witness :
    (POST ⟨some "sk-test", none, false, none, "wf_default"⟩ ⟨"POST", none, ""⟩ "u-1"
      ⟨200, "OK", some (.obj [])⟩).setCookie =
      some "chatkit_session_id=u-1; Path=/; Max-Age=2592000; HttpOnly; SameSite=Lax" ∧
    (POST ⟨some "sk-test", none, false, none, "wf_default"⟩
      ⟨"POST", some "chatkit_session_id=u-1", ""⟩ "u-2"
      ⟨200, "OK", some (.obj [])⟩).setCookie = none := by
  have h1 := (createSession_cookie_behavior
    ⟨some "sk-test", none, false, none, "wf_default"⟩ ⟨"POST", none, ""⟩ "u-1"
    ⟨200, "OK", some (.obj [])⟩ rfl rfl).1 rfl
  have h2 := (createSession_cookie_behavior
    ⟨some "sk-test", none, false, none, "wf_default"⟩
    ⟨"POST", some "chatkit_session_id=u-1", ""⟩ "u-2"
    ⟨200, "OK", some (.obj [])⟩ rfl rfl).2.1 rfl
  exact ⟨by rw [h1]; rfl, h2⟩

/-- Check whether a JSON value is an object. -/
def isJsonObj : Json → Bool
  | .obj _ => true
  | _ => false

/-- C8 counterexample: the whole-text parse stage accepts a `data` field
that is a plain string, so extraction produces a payload whose data is not
an object. -/
theorem extraction_accepts_nonobject_data :
    parseWidgetFromText "\x7b\"widget\":\"x\",\"data\":\"y\"\x7d" =
      some ⟨"x", .str "y"⟩ ∧
    isJsonObj (Json.str "y") = false := by
  exact ⟨by rfl, rfl⟩

/-- Auxiliary: inversion of the acceptance check — a produced payload has
a truthy `data` value and a widget string rendered from a truthy `widget`
value. -/
theorem widgetDataOfJson_eq_some {fuel : Nat} {parsed : Json} {w : WidgetData}
    (h : widgetDataOfJson fuel parsed = some w) :
    truthy w.data = true ∧
    ∃ jv, truthy jv = true ∧ w.widget = jsToStringAux fuel jv := by
  unfold widgetDataOfJson at h
  cases hwv : getField parsed "widget" with
  | none => rw [hwv] at h; simp [truthyOpt] at h
  | some a =>
    cases hdv : getField parsed "data" with
    | none => rw [hwv, hdv] at h; simp [truthyOpt] at h
    | some b =>
      rw [hwv, hdv] at h
      by_cases ha : truthy a = true
      · by_cases hbb : truthy b = true
        · cases w with
          | mk ww wd =>
            simp [truthyOpt, ha, hbb] at h
            exact ⟨by rw [← h.2]; exact hbb, ⟨a, ha, by rw [← h.1]⟩⟩
        · simp [truthyOpt, ha, hbb] at h
      · simp [truthyOpt, ha] at h

/-- C8 (amended): extraction produces a payload only when some stage
parses a JSON value whose `widget` field is truthy and whose `data` field
is truthy; the `data` field need not be an object — the whole-text parse
stage accepts any truthy data value. -/
theorem parseWidget_requires_truthy_fields (text : String) (w : WidgetData)
    (h : parseWidgetFromText text = some w) :
    truthy w.data = true ∧
    ∃ jv, truthy jv = true ∧ w.widget = jsToStringAux (text.data.length + 1) jv := by
  unfold parseWidgetFromText at h
  cases he : (text == "") with
  | true => rw [he] at h; simp at h
  | false =>
    rw [he] at h
    simp only [Bool.false_eq_true, if_false] at h
    cases hA : (firstMatchAux matchPattern1At text.data).bind
        (fun m => (jsonParse m).bind (widgetDataOfJson (text.data.length + 1))) with
    | some v =>
      rw [hA] at h
      simp only [Option.some_orElse] at h
      obtain rfl : v = w := by simpa using h
      obtain ⟨m, _, hA2⟩ := Option.bind_eq_some.mp hA
      obtain ⟨j, _, hwd⟩ := Option.bind_eq_some.mp hA2
      exact widgetDataOfJson_eq_some hwd
    | none =>
      rw [hA] at h
      simp only [Option.none_orElse] at h
      cases hB : (firstMatchAux matchPattern2At text.data).bind
          (fun m => (jsonParse m).bind (widgetDataOfJson (text.data.length + 1))) with
      | some v =>
        rw [hB] at h
        simp only [Option.some_orElse] at h
        obtain rfl : v = w := by simpa using h
        obtain ⟨m, _, hB2⟩ := Option.bind_eq_some.mp hB
        obtain ⟨j, _, hwd⟩ := Option.bind_eq_some.mp hB2
        exact widgetDataOfJson_eq_some hwd
      | none =>
        rw [hB] at h
        simp only [Option.none_orElse] at h
        obtain ⟨j, _, hwd⟩ := Option.bind_eq_some.mp h
        exact widgetDataOfJson_eq_some hwd

/-- Witness for C8 at the string-data payload. -/
theorem parseWidget_requires_truthy_fields_witness :
    truthy (WidgetData.mk "x" (Json.str "y")).data = true ∧
    ∃ jv, truthy jv = true ∧ (WidgetData.mk "x" (Json.str "y")).widget =
      jsToStringAux (("\x7b\"widget\":\"x\",\"data\":\"y\"\x7d" : String).data.length + 1) jv :=
  parseWidget_requires_truthy_fields "\x7b\"widget\":\"x\",\"data\":\"y\"\x7d"
    ⟨"x", .str "y"⟩ (by rfl)

/-- C9 counterexample: on a text that is exactly a widget object whose
`data` nests objects two levels deep, extraction succeeds (the whole-text
parse fallback accepts it after both regex stages fail), contradicting the
claim that such texts always fail extraction. -/
theorem deepNested_extraction_succeeds_whole_text :
    parseWidgetFromText
        "\x7b\"widget\":\"x\",\"data\":\x7b\"a\":\x7b\"b\":\x7b\"c\":1\x7d\x7d\x7d\x7d" =
      some ⟨"x", .obj [("a", .obj [("b", .obj [("c", .num 1 0)])])]⟩ := by
  rfl

/-- Auxiliary: an `orElse` chain yields a value whenever its right side
does. -/
theorem orElse_isSome_of_right {α : Type} (a : Option α) {b : Option α} {w : α}
    (hb : b = some w) : (a <|> b).isSome = true := by
  cases a <;> simp [hb]

/-- C9 (amended): deeper-than-one-level nesting inside `data` does not
force extraction to fail — for every nonempty text whose entire trimmed
content parses as JSON with truthy `widget` and `data` fields, extraction
succeeds, regardless of nesting depth (the whole-text parse fallback runs
after both regex stages); extraction can still fail when such an object is
only embedded in surrounding prose, as at the concrete text
`Result: ...deep object... end`, which yields no payload. -/
theorem deepNested_whole_text_fallback :
    (∀ (text : String) (w : WidgetData), (text == "") = false →
      (jsonParse (jsTrim text.data)).bind
        (widgetDataOfJson (text.data.length + 1)) = some w →
      (parseWidgetFromText text).isSome = true) ∧
    parseWidgetFromText
        "Result: \x7b\"widget\":\"x\",\"data\":\x7b\"a\":\x7b\"b\":\x7b\"c\":1\x7d\x7d\x7d\x7d end" =
      none := by
  refine ⟨?fallback, by rfl⟩
  intro text w hne hwhole
  unfold parseWidgetFromText
  simp only [hne, Bool.false_eq_true, if_false]
  exact orElse_isSome_of_right _ hwhole

/-- Witness for C9: the universal fallback applied at a deep-nested widget
object surrounded only by whitespace. -/
theorem deepNested_whole_text_fallback_witness :
    (parseWidgetFromText
      "  \x7b\"widget\":\"x\",\"data\":\x7b\"a\":\x7b\"b\":\x7b\"c\":1\x7d\x7d\x7d\x7d ").isSome = true :=
  deepNested_whole_text_fallback.1
    "  \x7b\"widget\":\"x\",\"data\":\x7b\"a\":\x7b\"b\":\x7b\"c\":1\x7d\x7d\x7d\x7d "
    ⟨"x", .obj [("a", .obj [("b", .obj [("c", .num 1 0)])])]⟩ rfl (by rfl)
